import Mathlib

/-!
Verification of the BkPrecision168x serial driver
(src/BkPrecision168xInterface.py) against its specification.

The Python floats that carry physical quantities (volts, amps) are
modelled as rationals (ℚ); Python `int()` applied to a float truncates
toward zero, Python `%` on integers with a positive modulus returns a
non-negative remainder (this agrees with Lean's `Int.emod`).  Python 2
byte strings are modelled as Lean `String`s.  The three exception
classes of the module (`InvalidArgumentException`, `NoAckException`,
`TimeoutException`), together with the `ValueError` raised by a failing
`int(...)`/`float(...)` conversion on a malformed argument, are modelled
by the error type `PyErr`; fallible operations return `Except PyErr`.

The serial transport is modelled as a function `avail : ℕ → String`
giving, at the i-th 20 ms poll of `ReadBuffer`, the bytes currently
buffered by the transport (`inWaiting()` returns its length, `read`
consumes a prefix of it).
-/

namespace BkPrecision168x

/-- Errors of the driver: the module's exception classes plus the
`ValueError` of a failed numeric conversion (spec name: InvalidArgument). -/
inductive PyErr where
  | invalidArgument
  | noAck
  | timeout
  deriving DecidableEq

/-- Decidable equality on `Except`, so that runs of the embedded driver
can be checked by evaluation. -/
def exceptDecEq {ε α : Type} [DecidableEq ε] [DecidableEq α] :
    (x y : Except ε α) → Decidable (x = y)
  | Except.error a, Except.error b =>
    if h : a = b then Decidable.isTrue (congrArg Except.error h)
    else Decidable.isFalse (fun hc => h (Except.error.inj hc))
  | Except.error _, Except.ok _ => Decidable.isFalse (fun hc => Except.noConfusion hc)
  | Except.ok _, Except.error _ => Decidable.isFalse (fun hc => Except.noConfusion hc)
  | Except.ok a, Except.ok b =>
    if h : a = b then Decidable.isTrue (congrArg Except.ok h)
    else Decidable.isFalse (fun hc => h (Except.ok.inj hc))

instance {ε α : Type} [DecidableEq ε] [DecidableEq α] : DecidableEq (Except ε α) :=
  exceptDecEq

/-- Python `int()` applied to a real number: truncation toward zero. -/
def pyTrunc (q : ℚ) : ℤ := if 0 ≤ q then ⌊q⌋ else ⌈q⌉

/-- Python `str` of an integer: decimal digits, with a leading minus sign
for negative values. -/
def pyStrInt (n : ℤ) : String :=
  if n < 0 then "-" ++ Nat.repr n.natAbs else Nat.repr n.toNat

/-- Python `str.rjust(width, fill)`: left-pad to `width` with `fill`. -/
def rjust (s : String) (width : ℕ) (fill : Char) : String :=
  String.mk (List.replicate (width - s.length) fill) ++ s

/-- `__FloatToThreeDigits` (line 139): `str(int(inputFloat * 10) % 200)`
right-justified to width 3 with `'0'`. -/
def FloatToThreeDigits (v : ℚ) : String :=
  rjust (pyStrInt (pyTrunc (v * 10) % 200)) 3 '0'

/-- `__FloatToThreeDigits` including its first line `float(inputFloat)`,
which raises on an argument that cannot be interpreted as a decimal
number; such an argument is modelled as `none`. -/
def FloatToThreeDigitsChecked : Option ℚ → Except PyErr String
  | none => Except.error PyErr.invalidArgument
  | some v => Except.ok (FloatToThreeDigits v)

/-- The encoder as the specification words it (section 4.1): round to the
nearest integer instead of truncating.  Used only to compare the
specification against the source. -/
def FloatToThreeDigitsSpecRound (v : ℚ) : String :=
  rjust (pyStrInt (round (v * 10) % 200)) 3 '0'

/-- Numeric value of a list of decimal digit characters. -/
def digitsVal (l : List Char) : ℕ :=
  l.foldl (fun acc c => acc * 10 + (c.toNat - 48)) 0

/-- The whitespace characters stripped by Python's `int(str)` and
`float(str)`: space, tab, newline, carriage return, vertical tab and form
feed. -/
def pyWhitespace (c : Char) : Bool :=
  c == ' ' || c == '\t' || c == '\n' || c == '\r' || c == '\x0b' || c == '\x0c'

/-- Strip leading and trailing whitespace, as Python's `int(str)`
tolerates. -/
def stripSpaces (l : List Char) : List Char :=
  ((l.dropWhile pyWhitespace).reverse.dropWhile pyWhitespace).reverse

/-- Parse a non-empty all-digit character list. -/
def parseDigits (l : List Char) : Option ℕ :=
  if ¬ l = [] ∧ l.all Char.isDigit then some (digitsVal l) else none

/-- Python `int(s)` on a string: optional surrounding whitespace, an
optional sign, then one or more decimal digits; anything else raises
(modelled as `none`). -/
def pyIntParse (s : String) : Option ℤ :=
  match stripSpaces s.data with
  | [] => none
  | c :: rest =>
    if c = '-' then (parseDigits rest).map (fun n => -(n : ℤ))
    else if c = '+' then (parseDigits rest).map (fun n => (n : ℤ))
    else (parseDigits (c :: rest)).map (fun n => (n : ℤ))

/-- `__ThreeDigitsToFloat` (line 144): `int(inputDigits)` as a validity
check (a failed conversion raises), then `float(inputDigits) / 10`. -/
def ThreeDigitsToFloat (s : String) : Except PyErr ℚ :=
  match pyIntParse s with
  | none => Except.error PyErr.invalidArgument
  | some n => Except.ok ((n : ℚ) / 10)

/-- `__FourDigitsToFloat` (line 148): like `__ThreeDigitsToFloat` but
dividing by 100. -/
def FourDigitsToFloat (s : String) : Except PyErr ℚ :=
  match pyIntParse s with
  | none => Except.error PyErr.invalidArgument
  | some n => Except.ok ((n : ℚ) / 100)

/-- Python slicing `s[a:b]` for `0 ≤ a ≤ b` (clamped at the ends). -/
def pySlice (s : String) (a b : ℕ) : String :=
  String.mk ((s.data.drop a).take (b - a))

/-- Number of iterations of the `ReadBuffer` polling loop: the loop body
runs while `t < 1.0` where `t` starts at `0.` and grows by `0.02` per
iteration, i.e. for `t = k * 0.02` with `k * 0.02 < 1.0`, that is
`k < 50`. -/
def pollLimit : ℕ := 50

/-- The polling loop of `ReadBuffer` (line 180): at each remaining poll,
compare `inWaiting()` (the length of the currently buffered bytes) with
the wanted count and consume exactly that many bytes on an exact match;
`fuel` is the number of polls left before the 1 s deadline and `i` the
index of the current poll. -/
def readLoop (avail : ℕ → String) (expected : ℕ) : ℕ → ℕ → Except PyErr String
  | 0, _ => Except.error PyErr.timeout
  | fuel + 1, i =>
    if (avail i).length = expected then Except.ok (String.mk ((avail i).data.take expected))
    else readLoop avail expected fuel (i + 1)

/-- `ReadBuffer` (line 177): poll every 20 ms within the 1 s deadline for
the buffered byte count to equal `expected`; read exactly `expected`
bytes on a match, raise `TimeoutException` otherwise. -/
def ReadBuffer (avail : ℕ → String) (expected : ℕ) : Except PyErr String :=
  readLoop avail expected pollLimit 0

/-- `ExecuteCommand` (line 168): write `command + '\r'`, read
`readbufferDepth + 3` bytes, check the two bytes at offsets
`[readbufferDepth, readbufferDepth+2)` against `"OK"`, and return the
leading `readbufferDepth` bytes.  The first component of the result is
what was written to the transport, the second the returned payload or
the raised exception. -/
def ExecuteCommand (avail : ℕ → String) (command : String) (readbufferDepth : ℕ) :
    String × Except PyErr String :=
  (command ++ "\r",
    match ReadBuffer avail (readbufferDepth + 3) with
    | Except.error e => Except.error e
    | Except.ok readBuffer =>
      if ¬ pySlice readBuffer readbufferDepth (readbufferDepth + 2) = "OK" then
        Except.error PyErr.noAck
      else Except.ok (pySlice readBuffer 0 readbufferDepth))

/-- One iteration of the `SetPresetValues` loop body (line 51): check that
the slot is a list of exactly 2 values, then encode `slot[0]` and
`slot[1]`. -/
def encodeSlot : List ℚ → Except PyErr String
  | [a, b] => Except.ok (FloatToThreeDigits a ++ FloatToThreeDigits b)
  | _ => Except.error PyErr.invalidArgument

/-- `SetPresetValues` (line 46): validate the shape (a list of exactly 3
slots, each a list of exactly 2 values), build
`PROM` + six 3-digit fields, then transmit.  `Except.ok cmd` means the
single command `cmd` was passed to `ExecuteCommand`; an error means the
exception was raised before any transmission. -/
def SetPresetValues (presets : List (List ℚ)) : Except PyErr String :=
  if presets.length = 3 then
    match presets with
    | [p0, p1, p2] =>
      match encodeSlot p0 with
      | Except.error e => Except.error e
      | Except.ok s0 =>
        match encodeSlot p1 with
        | Except.error e => Except.error e
        | Except.ok s1 =>
          match encodeSlot p2 with
          | Except.error e => Except.error e
          | Except.ok s2 => Except.ok ("PROM" ++ s0 ++ s1 ++ s2)
    | _ => Except.error PyErr.invalidArgument
  else Except.error PyErr.invalidArgument

/-- `RecallPresetValues` (line 132): raise `InvalidArgumentException` for
an index outside `{0, 1, 2}` before any transmission, otherwise transmit
`RUNM` + the index.  `Except.ok cmd` means `cmd` was passed to
`ExecuteCommand`. -/
def RecallPresetValues (presetNumber : ℤ) : Except PyErr String :=
  if presetNumber < 0 ∨ 2 < presetNumber then Except.error PyErr.invalidArgument
  else Except.ok ("RUNM" ++ pyStrInt presetNumber)

/-- `GetDisplayStatus` (line 58): run `GETD` with a 10-byte payload,
decode two 4-digit fields and the mode digit (`0` means constant
voltage, rendered `"CV"`, anything else `"CC"`). -/
def GetDisplayStatus (avail : ℕ → String) : Except PyErr (ℚ × ℚ × String) :=
  match (ExecuteCommand avail "GETD" 10).2 with
  | Except.error e => Except.error e
  | Except.ok displayStatus =>
    match FourDigitsToFloat (pySlice displayStatus 0 4) with
    | Except.error e => Except.error e
    | Except.ok voltage =>
      match FourDigitsToFloat (pySlice displayStatus 4 8) with
      | Except.error e => Except.error e
      | Except.ok current =>
        match pyIntParse (pySlice displayStatus 8 9) with
        | none => Except.error PyErr.invalidArgument
        | some m => Except.ok (voltage, current, if m = 0 then "CV" else "CC")

/-- `SetVoltage` (line 16): transmit `VOLT` + the 3-digit encoding. -/
def SetVoltage (voltage : ℚ) : String := "VOLT" ++ FloatToThreeDigits voltage

/-! ### Helper lemmas -/

theorem emod200_nonneg (n : ℤ) : 0 ≤ n % 200 := Int.emod_nonneg n (by norm_num)

theorem emod200_lt (n : ℤ) : n % 200 < 200 := Int.emod_lt_of_pos n (by norm_num)

theorem pyStrInt_of_nonneg {n : ℤ} (h : 0 ≤ n) : pyStrInt n = Nat.repr n.toNat := by
  unfold pyStrInt
  rw [if_neg (by omega)]

theorem pyTrunc_intCast (k : ℤ) : pyTrunc (k : ℚ) = k := by
  unfold pyTrunc
  rcases le_or_lt 0 (k : ℚ) with h | h
  · rw [if_pos h, Int.floor_intCast]
  · rw [if_neg (not_le.mpr h), Int.ceil_intCast]

theorem pyTrunc_of_nonneg {q : ℚ} (h : 0 ≤ q) : pyTrunc q = ⌊q⌋ := if_pos h

set_option maxHeartbeats 1000000 in
set_option maxRecDepth 4000 in
/-- Every integer below 200 is rendered by the zero-padding encoder as a
3-character all-digit field that parses back to itself. -/
theorem pad3_wellformed : ∀ i : Fin 200,
    (rjust (Nat.repr i.1) 3 '0').length = 3 ∧
    ((rjust (Nat.repr i.1) 3 '0').data.all Char.isDigit) = true ∧
    pyIntParse (rjust (Nat.repr i.1) 3 '0') = some (i.1 : ℤ) := by decide

theorem FloatToThreeDigits_eq_pad (v : ℚ) :
    FloatToThreeDigits v = rjust (Nat.repr (pyTrunc (v * 10) % 200).toNat) 3 '0' := by
  unfold FloatToThreeDigits
  rw [pyStrInt_of_nonneg (emod200_nonneg _)]

/-! ### Claim C1 -/

unseal Rat.mul Rat.add Rat.sub Rat.inv in
/-- C1 counterexample: at input `0.15` the encoder of the source truncates
`0.15 * 10 = 1.5` to `1` and answers `"001"`, while the claimed
`round(value * 10) mod 200` rendering answers `"002"`; the claim is false
as stated. -/
theorem FloatToThreeDigits_round_counterexample :
    ¬ FloatToThreeDigits (3 / 20) = FloatToThreeDigitsSpecRound (3 / 20) := by decide

/-- C1 (amended): for every input interpretable as a decimal number, the
3-digit encoder returns the integer obtained by TRUNCATING `value * 10`
toward zero, reduced mod 200 (a non-negative integer below 200), rendered
as a 3-character string left-padded with `'0'`; for a value that cannot be
interpreted as a decimal number it fails with InvalidArgument. -/
theorem FloatToThreeDigits_trunc_mod (v : ℚ) :
    (∃ m : ℕ, m < 200 ∧ (m : ℤ) = pyTrunc (v * 10) % 200 ∧
      FloatToThreeDigits v = rjust (Nat.repr m) 3 '0') ∧
    FloatToThreeDigitsChecked none = Except.error PyErr.invalidArgument ∧
    FloatToThreeDigitsChecked (some v) = Except.ok (FloatToThreeDigits v) := by
  refine ⟨⟨(pyTrunc (v * 10) % 200).toNat, ?_, ?_, FloatToThreeDigits_eq_pad v⟩, rfl, rfl⟩
  · have h1 := emod200_nonneg (pyTrunc (v * 10))
    have h2 := emod200_lt (pyTrunc (v * 10))
    omega
  · exact Int.toNat_of_nonneg (emod200_nonneg _)

/-! ### Claim C10 -/

/-- C10: for every numeric input, including negative values, the 3-digit
encoder returns a string of exactly 3 characters, all decimal digits,
representing an integer in `[0, 199]`; no minus sign and no short or long
field can be produced, because the mod-200 reduction is non-negative. -/
theorem FloatToThreeDigits_wellformed (v : ℚ) :
    (FloatToThreeDigits v).length = 3 ∧
    ((FloatToThreeDigits v).data.all Char.isDigit) = true ∧
    ∃ m : ℕ, m < 200 ∧ pyIntParse (FloatToThreeDigits v) = some (m : ℤ) := by
  have hnn := emod200_nonneg (pyTrunc (v * 10))
  have hlt := emod200_lt (pyTrunc (v * 10))
  have hm : (pyTrunc (v * 10) % 200).toNat < 200 := by omega
  obtain ⟨h1, h2, h3⟩ := pad3_wellformed ⟨(pyTrunc (v * 10) % 200).toNat, hm⟩
  rw [FloatToThreeDigits_eq_pad v]
  exact ⟨h1, h2, _, hm, h3⟩

/-! ### Claim C5 -/

/-- C5: for every value `v ≥ 20.0`, the 3-digit encoder produces the same
field for `v` as for `v - 20.0` (wraparound modulo 20.0). -/
theorem FloatToThreeDigits_wraparound (v : ℚ) (h : 20 ≤ v) :
    FloatToThreeDigits v = FloatToThreeDigits (v - 20) := by
  have h1 : (0 : ℚ) ≤ v * 10 := by nlinarith
  have h2 : (0 : ℚ) ≤ (v - 20) * 10 := by nlinarith
  unfold FloatToThreeDigits
  rw [pyTrunc_of_nonneg h1, pyTrunc_of_nonneg h2]
  have hsub : (v - 20) * 10 = v * 10 - ((200 : ℤ) : ℚ) := by push_cast; ring
  rw [hsub, Int.floor_sub_int]
  have hmod : (⌊v * 10⌋ - 200) % 200 = ⌊v * 10⌋ % 200 := by omega
  rw [hmod]

unseal Rat.mul Rat.add Rat.sub Rat.inv in
/-- Witness for C5 at the concrete input `25.3`: both sides evaluate and
the hypothesis `20 ≤ 25.3` holds. -/
theorem FloatToThreeDigits_wraparound_witness :
    20 ≤ (253 / 10 : ℚ) ∧
    FloatToThreeDigits (253 / 10) = FloatToThreeDigits (253 / 10 - 20) :=
  ⟨by decide, FloatToThreeDigits_wraparound (253 / 10) (by decide)⟩

/-! ### Claim C2 -/

/-- C2: for every voltage `v` with `0 ≤ v < 20.0` that is an exact multiple
of `0.1`, decoding the 3-digit encoding of `v` gives back `v`. -/
theorem roundtrip_decode3_encode3 (v : ℚ) (h0 : 0 ≤ v) (h1 : v < 20)
    (hstep : ∃ k : ℤ, v = (k : ℚ) / 10) :
    ThreeDigitsToFloat (FloatToThreeDigits v) = Except.ok v := by
  obtain ⟨k, rfl⟩ := hstep
  have hk0 : 0 ≤ k := by
    have h := (le_div_iff₀ (by norm_num : (0 : ℚ) < 10)).mp h0
    have h2 : (0 : ℚ) ≤ (k : ℚ) := by linarith
    exact_mod_cast h2
  have hk200 : k < 200 := by
    have h := (div_lt_iff₀ (by norm_num : (0 : ℚ) < 10)).mp h1
    have h2 : (k : ℚ) < 200 := by linarith
    exact_mod_cast h2
  have hmul : (k : ℚ) / 10 * 10 = (k : ℚ) := div_mul_cancel₀ _ (by norm_num)
  have hfield : FloatToThreeDigits ((k : ℚ) / 10) = rjust (Nat.repr k.toNat) 3 '0' := by
    rw [FloatToThreeDigits_eq_pad, hmul, pyTrunc_intCast, Int.emod_eq_of_lt hk0 hk200]
  have hmem : k.toNat < 200 := by omega
  have hparse := (pad3_wellformed ⟨k.toNat, hmem⟩).2.2
  rw [hfield]
  unfold ThreeDigitsToFloat
  rw [hparse, Int.toNat_of_nonneg hk0]

unseal Rat.mul Rat.add Rat.sub Rat.inv in
/-- Witness for C2 at the concrete voltage `5.7`: all three hypotheses hold
and the round trip evaluates to `5.7`. -/
theorem roundtrip_decode3_encode3_witness :
    0 ≤ (57 / 10 : ℚ) ∧ (57 / 10 : ℚ) < 20 ∧ (∃ k : ℤ, (57 / 10 : ℚ) = (k : ℚ) / 10) ∧
    ThreeDigitsToFloat (FloatToThreeDigits (57 / 10)) = Except.ok ((57 : ℚ) / 10) :=
  ⟨by decide, by decide, ⟨57, by decide⟩,
    roundtrip_decode3_encode3 (57 / 10) (by decide) (by decide) ⟨57, by decide⟩⟩

/-! ### Claim C6 -/

unseal Rat.mul Rat.add Rat.sub Rat.inv in
/-- C6 counterexample: the field `"-12"` is not 3 decimal digits, yet
`decode3` does not fail with InvalidArgument on it — it parses the sign and
returns `-1.2`. -/
theorem decode3_nondigit_counterexample :
    (¬ (("-12").length = 3 ∧ (("-12").data.all Char.isDigit) = true)) ∧
    ¬ ThreeDigitsToFloat "-12" = Except.error PyErr.invalidArgument ∧
    ThreeDigitsToFloat "-12" = Except.ok (-(12 / 10 : ℚ)) := by decide

unseal Rat.mul Rat.add Rat.sub Rat.inv in
/-- The whitespace tolerance of Python's `int()` is modelled in full: tab-
and newline-padded digit fields parse, and decode, exactly like the
program does. -/
theorem pyIntParse_whitespace_padded :
    pyIntParse "\t12" = some 12 ∧ pyIntParse "12\n" = some 12 ∧
    ThreeDigitsToFloat "\t12" = Except.ok ((12 : ℚ) / 10) := by decide

/-- C6 (amended): `decode3` parses its field as an optionally signed
integer (surrounding whitespace tolerated, as Python's `int` accepts) and
divides by 10; it fails with InvalidArgument exactly when the field does
not parse as such an integer — not whenever the field is not exactly 3
decimal digits.  `decode4` behaves the same with divisor 100. -/
theorem decode_parse (s : String) :
    (ThreeDigitsToFloat s = Except.error PyErr.invalidArgument ↔ pyIntParse s = none) ∧
    (∀ n : ℤ, pyIntParse s = some n → ThreeDigitsToFloat s = Except.ok ((n : ℚ) / 10)) ∧
    (FourDigitsToFloat s = Except.error PyErr.invalidArgument ↔ pyIntParse s = none) ∧
    (∀ n : ℤ, pyIntParse s = some n → FourDigitsToFloat s = Except.ok ((n : ℚ) / 100)) := by
  unfold ThreeDigitsToFloat FourDigitsToFloat
  rcases hp : pyIntParse s with _ | n
  · simp
  · refine ⟨by simp, ?_, by simp, ?_⟩ <;> rintro n' hn' <;> rw [Option.some_inj.mp hn']

/-- Witness for C6 at the concrete field `"012"`: it parses as the integer
12 and decodes to `1.2`. -/
theorem decode_parse_witness :
    ThreeDigitsToFloat "012" = Except.ok (((12 : ℤ) : ℚ) / 10) :=
  (decode_parse "012").2.1 12 (by decide)

/-! ### Claim C3 -/

theorem readLoop_ok_length (avail : ℕ → String) (expected : ℕ) :
    ∀ fuel i r, readLoop avail expected fuel i = Except.ok r → r.length = expected := by
  intro fuel
  induction fuel with
  | zero =>
    intro i r h
    exact absurd h (by simp [readLoop])
  | succ m ih =>
    intro i r h
    rw [readLoop] at h
    by_cases hc : (avail i).length = expected
    · rw [if_pos hc] at h
      cases h
      show (String.mk ((avail i).data.take expected)).length = expected
      have : (avail i).data.length = expected := hc
      simp [String.length, List.length_take, this]
    · rw [if_neg hc] at h
      exact ih (i + 1) r h

theorem readLoop_ok_iff (avail : ℕ → String) (expected : ℕ) :
    ∀ fuel i, (∃ r, readLoop avail expected fuel i = Except.ok r) ↔
      ∃ j, j < fuel ∧ (avail (i + j)).length = expected := by
  intro fuel
  induction fuel with
  | zero =>
    intro i
    constructor
    · rintro ⟨r, hr⟩
      exact absurd hr (by simp [readLoop])
    · rintro ⟨j, hj, -⟩
      omega
  | succ m ih =>
    intro i
    rw [readLoop]
    by_cases hc : (avail i).length = expected
    · rw [if_pos hc]
      exact ⟨fun _ => ⟨0, by omega, by simpa using hc⟩, fun _ => ⟨_, rfl⟩⟩
    · rw [if_neg hc]
      rw [ih (i + 1)]
      constructor
      · rintro ⟨j, hj, hmatch⟩
        exact ⟨j + 1, by omega, by rw [show i + (j + 1) = i + 1 + j by omega]; exact hmatch⟩
      · rintro ⟨j, hj, hmatch⟩
        match j with
        | 0 => exact absurd (by simpa using hmatch) hc
        | j + 1 =>
          exact ⟨j, by omega, by rw [show i + 1 + j = i + (j + 1) by omega]; exact hmatch⟩

theorem readLoop_timeout_iff (avail : ℕ → String) (expected : ℕ) :
    ∀ fuel i, readLoop avail expected fuel i = Except.error PyErr.timeout ↔
      ∀ j, j < fuel → ¬ (avail (i + j)).length = expected := by
  intro fuel
  induction fuel with
  | zero =>
    intro i
    simp [readLoop]
  | succ m ih =>
    intro i
    rw [readLoop]
    by_cases hc : (avail i).length = expected
    · rw [if_pos hc]
      constructor
      · intro h
        exact absurd h (by simp)
      · intro h
        exact absurd (by simpa using hc) (h 0 (by omega))
    · rw [if_neg hc]
      rw [ih (i + 1)]
      constructor
      · intro h j hj
        match j with
        | 0 => simpa using hc
        | j + 1 =>
          rw [show i + (j + 1) = i + 1 + j by omega]
          exact h j (by omega)
      · intro h j hj
        rw [show i + 1 + j = i + (j + 1) by omega]
        exact h (j + 1) (by omega)

/-- C3: `ReadBuffer(expected)` returns exactly `expected` bytes if and only
if some poll sample (taken every 20 ms within the 1 s deadline, so at most
`pollLimit = 50` samples) finds the transport's buffered byte count exactly
equal to `expected`; otherwise it fails with Timeout.  In particular, a
transport that delivers the data in two bursts ("O" of size 1, then "K\r"
of size 2, completing the cumulative 3 bytes only after the poll window)
whose observed buffered counts never equal the expected 3 causes a Timeout
even though the cumulative bytes eventually match. -/
theorem ReadBuffer_exact_polling (avail : ℕ → String) (expected : ℕ) :
    ((∃ r, ReadBuffer avail expected = Except.ok r ∧ r.length = expected) ↔
      ∃ i, i < pollLimit ∧ (avail i).length = expected) ∧
    (ReadBuffer avail expected = Except.error PyErr.timeout ↔
      ∀ i, i < pollLimit → ¬ (avail i).length = expected) ∧
    ReadBuffer (fun i => if i < pollLimit then "O" else "OK\r") 3 =
      Except.error PyErr.timeout := by
  refine ⟨?_, ?_, ?_⟩
  · constructor
    · rintro ⟨r, hr, -⟩
      have h := (readLoop_ok_iff avail expected pollLimit 0).mp ⟨r, hr⟩
      simpa using h
    · intro hex
      obtain ⟨r, hr⟩ := (readLoop_ok_iff avail expected pollLimit 0).mpr (by simpa using hex)
      exact ⟨r, hr, readLoop_ok_length avail expected pollLimit 0 r hr⟩
  · have h := readLoop_timeout_iff avail expected pollLimit 0
    simpa using h
  · decide

/-- Witness for C3: with a transport holding the constant 3-byte buffer
`"abc"`, the poller succeeds and returns exactly 3 bytes. -/
theorem ReadBuffer_exact_polling_witness :
    ∃ r, ReadBuffer (fun _ => "abc") 3 = Except.ok r ∧ r.length = 3 :=
  (ReadBuffer_exact_polling (fun _ => "abc") 3).1.mpr ⟨0, by decide, by decide⟩

/-! ### Claim C4 -/

theorem ReadBuffer_ok_length {avail : ℕ → String} {expected : ℕ} {r : String}
    (h : ReadBuffer avail expected = Except.ok r) : r.length = expected :=
  readLoop_ok_length avail expected pollLimit 0 r h

/-- C4: for every command and every `responsePayloadLength` `n`,
`ExecuteCommand` writes the command followed by one line-terminator byte
and reads exactly `n + 3` bytes; given that read, it fails with NoAck if
and only if the two bytes at offsets `[n, n+2)` of the reply differ from
the literal marker `"OK"`, and otherwise returns exactly the first `n`
bytes of the reply.  A failed read propagates its error instead. -/
theorem ExecuteCommand_spec (avail : ℕ → String) (command : String) (n : ℕ) :
    (ExecuteCommand avail command n).1 = command ++ "\r" ∧
    (∀ e, ReadBuffer avail (n + 3) = Except.error e →
      (ExecuteCommand avail command n).2 = Except.error e) ∧
    (∀ reply, ReadBuffer avail (n + 3) = Except.ok reply →
      reply.length = n + 3 ∧
      ((ExecuteCommand avail command n).2 = Except.error PyErr.noAck ↔
        ¬ pySlice reply n (n + 2) = "OK") ∧
      (pySlice reply n (n + 2) = "OK" →
        (ExecuteCommand avail command n).2 = Except.ok (pySlice reply 0 n))) := by
  refine ⟨rfl, ?_, ?_⟩
  · intro e he
    show (match ReadBuffer avail (n + 3) with
      | Except.error e => Except.error e
      | Except.ok readBuffer =>
        if ¬ pySlice readBuffer n (n + 2) = "OK" then Except.error PyErr.noAck
        else Except.ok (pySlice readBuffer 0 n)) = Except.error e
    rw [he]
  · intro reply hr
    refine ⟨ReadBuffer_ok_length hr, ?_, ?_⟩
    · show (match ReadBuffer avail (n + 3) with
        | Except.error e => Except.error e
        | Except.ok readBuffer =>
          if ¬ pySlice readBuffer n (n + 2) = "OK" then Except.error PyErr.noAck
          else Except.ok (pySlice readBuffer 0 n)) = Except.error PyErr.noAck ↔
        ¬ pySlice reply n (n + 2) = "OK"
      rw [hr]
      by_cases hack : pySlice reply n (n + 2) = "OK"
      · simp [hack]
      · simp [hack]
    · intro hack
      show (match ReadBuffer avail (n + 3) with
        | Except.error e => Except.error e
        | Except.ok readBuffer =>
          if ¬ pySlice readBuffer n (n + 2) = "OK" then Except.error PyErr.noAck
          else Except.ok (pySlice readBuffer 0 n)) = Except.ok (pySlice reply 0 n)
      rw [hr]
      simp [hack]

/-- Witness for C4: against a transport whose buffer is the 3-byte reply
`"OK\r"`, the command `SOUT0` with payload length 0 succeeds and returns
the empty payload. -/
theorem ExecuteCommand_spec_witness :
    ("OK\r").length = 0 + 3 ∧
    (ExecuteCommand (fun _ => "OK\r") "SOUT0" 0).2 = Except.ok (pySlice "OK\r" 0 0) := by
  have h := (ExecuteCommand_spec (fun _ => "OK\r") "SOUT0" 0).2.2 "OK\r" (by decide)
  exact ⟨h.1, h.2.2 (by decide)⟩

/-! ### Claim C8 -/

/-- C8: for every index outside `{0, 1, 2}`, `RecallPresetValues` fails
with InvalidArgument before any transmission; for every index in
`{0, 1, 2}` it transmits exactly the mnemonic `RUNM0`, `RUNM1` or
`RUNM2`. -/
theorem RecallPresetValues_spec (n : ℤ) :
    (¬ (0 ≤ n ∧ n ≤ 2) → RecallPresetValues n = Except.error PyErr.invalidArgument) ∧
    (0 ≤ n → n ≤ 2 → RecallPresetValues n = Except.ok ("RUNM" ++ pyStrInt n)) ∧
    RecallPresetValues 0 = Except.ok "RUNM0" ∧
    RecallPresetValues 1 = Except.ok "RUNM1" ∧
    RecallPresetValues 2 = Except.ok "RUNM2" := by
  refine ⟨?_, ?_, by decide, by decide, by decide⟩
  · intro h
    unfold RecallPresetValues
    rw [if_pos (by omega)]
  · intro h1 h2
    unfold RecallPresetValues
    rw [if_neg (by omega)]

/-- Witness for C8 at the out-of-range index 3: the guard hypothesis holds
and the call fails with InvalidArgument. -/
theorem RecallPresetValues_spec_witness :
    (¬ (0 ≤ (3 : ℤ) ∧ (3 : ℤ) ≤ 2)) ∧
    RecallPresetValues 3 = Except.error PyErr.invalidArgument :=
  ⟨by decide, (RecallPresetValues_spec 3).1 (by decide)⟩

/-! ### Claim C7 -/

theorem encodeSlot_not_two {p : List ℚ} (h : ¬ p.length = 2) :
    encodeSlot p = Except.error PyErr.invalidArgument := by
  match p with
  | [] => rfl
  | [a] => rfl
  | [a, b] => exact absurd rfl h
  | a :: b :: c :: rest => rfl

theorem encodeSlot_two (a b : ℚ) :
    encodeSlot [a, b] = Except.ok (FloatToThreeDigits a ++ FloatToThreeDigits b) := rfl

/-- C7: for every input that is not a list of exactly 3 slots each being a
list of exactly 2 values, `SetPresetValues` fails with InvalidArgument and
nothing is passed to the transport (`Except.ok cmd` is the only way a
command reaches `ExecuteCommand`); for a well-shaped input it sends the
mnemonic `PROM` followed by the six 3-digit encodings in slot order. -/
theorem SetPresetValues_spec (presets : List (List ℚ)) :
    (¬ (presets.length = 3 ∧ ∀ p ∈ presets, p.length = 2) →
      SetPresetValues presets = Except.error PyErr.invalidArgument) ∧
    (∀ v0 i0 v1 i1 v2 i2 : ℚ, presets = [[v0, i0], [v1, i1], [v2, i2]] →
      SetPresetValues presets =
        Except.ok ("PROM" ++ (FloatToThreeDigits v0 ++ FloatToThreeDigits i0) ++
          (FloatToThreeDigits v1 ++ FloatToThreeDigits i1) ++
          (FloatToThreeDigits v2 ++ FloatToThreeDigits i2))) := by
  constructor
  · intro hbad
    by_cases h3 : presets.length = 3
    · obtain ⟨p0, p1, p2, rfl⟩ := List.length_eq_three.mp h3
      push_neg at hbad
      obtain ⟨p, hmem, hlen⟩ := hbad h3
      by_cases h0 : p0.length = 2
      · obtain ⟨a0, b0, rfl⟩ := List.length_eq_two.mp h0
        by_cases hp1 : p1.length = 2
        · obtain ⟨a1, b1, rfl⟩ := List.length_eq_two.mp hp1
          have hp2 : ¬ p2.length = 2 := by
            simp only [List.mem_cons, List.not_mem_nil, or_false] at hmem
            rcases hmem with rfl | rfl | rfl
            · exact absurd h0 hlen
            · exact absurd hp1 hlen
            · exact hlen
          simp [SetPresetValues, encodeSlot_two, encodeSlot_not_two hp2]
        · simp [SetPresetValues, encodeSlot_two, encodeSlot_not_two hp1]
      · simp [SetPresetValues, encodeSlot_not_two h0]
    · unfold SetPresetValues
      rw [if_neg h3]
  · rintro v0 i0 v1 i1 v2 i2 rfl
    simp [SetPresetValues, encodeSlot]

/-- Witness for C7 at the concrete malformed 2-slot input
`[[1, 2], [3, 4]]`: the shape hypothesis fails and the call returns
InvalidArgument. -/
theorem SetPresetValues_spec_witness :
    (¬ (([[1, 2], [3, 4]] : List (List ℚ)).length = 3 ∧
      ∀ p ∈ ([[1, 2], [3, 4]] : List (List ℚ)), p.length = 2)) ∧
    SetPresetValues [[1, 2], [3, 4]] = Except.error PyErr.invalidArgument :=
  ⟨by decide, (SetPresetValues_spec [[1, 2], [3, 4]]).1 (by decide)⟩

/-! ### Claim C9 -/

unseal Rat.mul Rat.add Rat.sub Rat.inv in
/-- C9: `GetDisplayStatus` against the stubbed full device reply
`"0500010000OK\r"` returns voltage `5.00`, current `1.00` and
constant-voltage mode (rendered `"CV"`); in general the first 4-digit
field divided by 100 is the voltage, the second 4-digit field divided by
100 is the current, and the single mode digit decodes to constant voltage
exactly when it is 0. -/
theorem GetDisplayStatus_spec :
    GetDisplayStatus (fun _ => "0500010000OK\r") = Except.ok (5, 1, "CV") ∧
    (∀ avail payload, (ExecuteCommand avail "GETD" 10).2 = Except.ok payload →
      ∀ q1 q2 : ℚ, FourDigitsToFloat (pySlice payload 0 4) = Except.ok q1 →
        FourDigitsToFloat (pySlice payload 4 8) = Except.ok q2 →
        ∀ m : ℤ, pyIntParse (pySlice payload 8 9) = some m →
          GetDisplayStatus avail = Except.ok (q1, q2, if m = 0 then "CV" else "CC")) := by
  constructor
  · decide
  · intro avail payload hp q1 q2 h1 h2 m hm
    unfold GetDisplayStatus
    simp only [hp, h1, h2, hm]

unseal Rat.mul Rat.add Rat.sub Rat.inv in
/-- Witness for C9: instantiating the general decoding law of
`GetDisplayStatus` at the stubbed transport whose reply is
`"0500010000OK\r"`, with every hypothesis discharged by evaluation. -/
theorem GetDisplayStatus_spec_witness :
    GetDisplayStatus (fun _ => "0500010000OK\r") =
      Except.ok (((500 : ℤ) : ℚ) / 100, ((100 : ℤ) : ℚ) / 100,
        if (0 : ℤ) = 0 then "CV" else "CC") :=
  GetDisplayStatus_spec.2 (fun _ => "0500010000OK\r") "0500010000" (by decide)
    (((500 : ℤ) : ℚ) / 100) (((100 : ℤ) : ℚ) / 100) (by decide) (by decide) 0 (by decide)

end BkPrecision168x
